import Mathlib

/-!
# PKI resources of the Kafka operator

A shallow embedding of `pkg/resources/pki/certs.go`: the derivation of the
common name and of the DNS alternative names of the broker certificate
(`getCommonName`, `getDNSNames`), the planning of the PKI resources
(`Reconciler.kafkapki`) and the assembly of the bootstrap secret
(`Reconciler.getBootstrapSSLSecret`).

Conventions of the embedding.

* A Go `string` is a `String`; a `[]byte` is a list of byte values, the nil
  slice being the empty list.
* A Go `map[string][]byte` is an association list with unique keys; a map
  literal is the sequence of the assignments of its entries to the empty map.
* A function returning `(value, error)` returns a pair whose error component
  is an `Option`; `none` is the nil error.
* The resource store behind `r.Client` is passed explicitly: a lookup returns
  its outcome together with the client whose list of performed reads has grown
  by one.
* Constants, helpers and library calls that `certs.go` uses but does not
  define are fields of `Env`.
-/

namespace KafkaPKI

/-! ## Byte maps -/

/-- Contents of a Go byte slice. -/
abbrev Bytes := List Nat

/-- A Go map from strings to byte slices. -/
abbrev DataMap := List (String × Bytes)

/-- The Go expression `m[k]`: the value stored under `k`, the nil slice when
`k` is absent. -/
def DataMap.get : DataMap → String → Bytes
  | [], _ => []
  | (k', v) :: rest, k => if k' = k then v else DataMap.get rest k

/-- The Go statement `m[k] = v`. -/
def DataMap.set : DataMap → String → Bytes → DataMap
  | [], k, v => [(k, v)]
  | (k', v') :: rest, k, v =>
    if k' = k then (k, v) :: rest else (k', v') :: DataMap.set rest k v

/-- The keys of a map. -/
def DataMap.keys (m : DataMap) : List String := m.map Prod.fst

/-! ## The cluster resource (api/v1beta1) -/

/-- Type `v1beta1.SSLSecrets`. -/
structure SSLSecrets where
  TLSSecretName : String
  JKSPasswordName : String
  Create : Bool
deriving DecidableEq, Repr

/-- Type `v1beta1.ListenersConfig`, the field read here. -/
structure ListenersConfig where
  SSLSecrets : SSLSecrets
deriving DecidableEq, Repr

/-- Type `v1beta1.Broker`, the field read here; `Id` is a Go `int32`. -/
structure Broker where
  Id : Int
deriving DecidableEq, Repr

/-- Type `v1beta1.KafkaClusterSpec`, the fields read here. -/
structure KafkaClusterSpec where
  HeadlessServiceEnabled : Bool
  ListenersConfig : ListenersConfig
  Brokers : List Broker
deriving DecidableEq, Repr

/-- Type `v1beta1.KafkaCluster`. -/
structure KafkaCluster where
  Name : String
  Namespace : String
  UID : String
  Spec : KafkaClusterSpec
deriving DecidableEq, Repr

/-! ## Kubernetes and cert-manager objects -/

/-- Type `metav1.OwnerReference`. -/
structure OwnerReference where
  Kind : String
  Name : String
  UID : String
  Controller : Bool
  BlockOwnerDeletion : Bool
deriving DecidableEq, Repr

/-- Type `metav1.ObjectMeta`, the fields touched here. -/
structure ObjectMeta where
  Name : String
  Namespace : String
  Labels : List (String × String)
  OwnerReferences : List OwnerReference
deriving DecidableEq, Repr

/-- Type `certv1.CAIssuer`. -/
structure CAIssuer where
  SecretName : String
deriving DecidableEq, Repr

/-- Type `certv1.SelfSignedIssuer`, an empty struct. -/
structure SelfSignedIssuer where
deriving DecidableEq, Repr

/-- Type `certv1.IssuerConfig`: each kind of issuer is an optional pointer. -/
structure IssuerConfig where
  CA : Option CAIssuer
  SelfSigned : Option SelfSignedIssuer
deriving DecidableEq, Repr

/-- Type `certv1.IssuerSpec`. -/
structure IssuerSpec where
  IssuerConfig : IssuerConfig
deriving DecidableEq, Repr

/-- Type `certv1.ClusterIssuer`. -/
structure ClusterIssuer where
  ObjectMeta : ObjectMeta
  Spec : IssuerSpec
deriving DecidableEq, Repr

/-- Type `certv1.ObjectReference`. -/
structure ObjectReference where
  Name : String
  Kind : String
deriving DecidableEq, Repr

/-- Type `certv1.KeyEncoding`: the zero value and the constant `certv1.PKCS8`. -/
inductive KeyEncoding where
  | unset
  | PKCS8
deriving DecidableEq, Repr

/-- Type `certv1.CertificateSpec`, the fields set here; a field that a struct
literal leaves out has its zero value. -/
structure CertificateSpec where
  SecretName : String
  KeyEncoding : KeyEncoding
  CommonName : String
  DNSNames : List String
  IsCA : Bool
  IssuerRef : ObjectReference
deriving DecidableEq, Repr

/-- Type `certv1.Certificate`. -/
structure Certificate where
  ObjectMeta : ObjectMeta
  Spec : CertificateSpec
deriving DecidableEq, Repr

/-- Type `corev1.Secret`. -/
structure Secret where
  ObjectMeta : ObjectMeta
  Data : DataMap
deriving DecidableEq, Repr

/-- The values of `runtime.Object` that `kafkapki` builds. -/
inductive RuntimeObject where
  | clusterIssuer (o : ClusterIssuer)
  | certificate (o : Certificate)
  | secret (o : Secret)
deriving DecidableEq, Repr

/-- Metadata of an object. -/
def RuntimeObject.meta : RuntimeObject → ObjectMeta
  | .clusterIssuer o => o.ObjectMeta
  | .certificate o => o.ObjectMeta
  | .secret o => o.ObjectMeta

/-- Replaces the owner references of an object and nothing else. -/
def RuntimeObject.setOwnerReferences (refs : List OwnerReference) : RuntimeObject → RuntimeObject
  | .clusterIssuer o => .clusterIssuer { o with ObjectMeta := { o.ObjectMeta with OwnerReferences := refs } }
  | .certificate o => .certificate { o with ObjectMeta := { o.ObjectMeta with OwnerReferences := refs } }
  | .secret o => .secret { o with ObjectMeta := { o.ObjectMeta with OwnerReferences := refs } }

/-- Type `types.NamespacedName`. -/
structure NamespacedName where
  Namespace : String
  Name : String
deriving DecidableEq, Repr

/-! ## Errors -/

/-- An error handed back by the resource store or by the controller runtime.
`IsNotFound` is the answer of `apierrors.IsNotFound` on it. -/
structure APIError where
  IsNotFound : Bool
  text : String
deriving DecidableEq, Repr

/-- The errors the two methods return: `errorfactory.New` with the types
`errorfactory.ResourceNotReady` and `errorfactory.APIFailure`, and
`errors.WrapIf` on a non-nil error. -/
inductive Error where
  | ResourceNotReady (cause : APIError) (msg : String)
  | APIFailure (cause : APIError) (msg : String)
  | WrapIf (cause : APIError) (msg : String)
deriving DecidableEq, Repr

/-! ## What `certs.go` uses without defining -/

/-- The constants, helpers and library calls used by `certs.go` and defined
elsewhere. A field named after a format template is `fmt.Sprintf` of that
template applied to one string argument. -/
structure Env where
  /-- Expression `fmt.Sprintf(brokerCACertTemplate, name)`. -/
  brokerCACertTemplate : String → String
  /-- Expression `fmt.Sprintf(brokerSelfSignerTemplate, name)`. -/
  brokerSelfSignerTemplate : String → String
  /-- Expression `fmt.Sprintf(brokerServerCertTemplate, name)`. -/
  brokerServerCertTemplate : String → String
  /-- Expression `fmt.Sprintf(pkiutils.BrokerIssuerTemplate, name)`. -/
  BrokerIssuerTemplate : String → String
  /-- Expression `fmt.Sprintf(pkiutils.BrokerControllerTemplate, name)`. -/
  BrokerControllerTemplate : String → String
  /-- Expression `fmt.Sprintf(kafkautils.HeadlessServiceTemplate, name)`. -/
  HeadlessServiceTemplate : String → String
  /-- Expression `fmt.Sprintf(kafkautils.AllBrokerServiceTemplate, name)`. -/
  AllBrokerServiceTemplate : String → String
  /-- Function `labelsForKafkaPKI`. -/
  labelsForKafkaPKI : String → List (String × String)
  /-- Function `templates.ObjectMeta`. -/
  ObjectMeta : String → List (String × String) → KafkaCluster → ObjectMeta
  /-- Constant `banzaicloudv1alpha1.CAPrivateKeyKey`. -/
  CAPrivateKeyKey : String
  /-- Constant `banzaicloudv1alpha1.CoreCACertKey`. -/
  CoreCACertKey : String
  /-- Constant `banzaicloudv1alpha1.PasswordKey`. -/
  PasswordKey : String
  /-- Constant `corev1.TLSCertKey`. -/
  TLSCertKey : String
  /-- Constant `corev1.TLSPrivateKeyKey`. -/
  TLSPrivateKeyKey : String
  /-- The error, if any, with which `controllerutil.SetControllerReference`
  refuses to register the cluster as the controller of an object. -/
  setControllerReferenceErr : KafkaCluster → RuntimeObject → Option APIError
  /-- Function `certutil.GeneratePass`: the bytes drawn in this invocation. -/
  GeneratePass : Nat → Bytes

/-- Modelled from the spec: the constant `banzaicloudv1alpha1.CACertKey` is
declared in `api/v1alpha1`, which is not among the sources; the bootstrap
credential set has the fixed field names caCert, peerCert, peerKey,
clientCert, clientKey. -/
def CACertKey : String := "caCert"

/-- Modelled from the spec: the constant `banzaicloudv1alpha1.PeerCertKey`
(see `CACertKey`). -/
def PeerCertKey : String := "peerCert"

/-- Modelled from the spec: the constant
`banzaicloudv1alpha1.PeerPrivateKeyKey` (see `CACertKey`). -/
def PeerPrivateKeyKey : String := "peerKey"

/-- Modelled from the spec: the constant `banzaicloudv1alpha1.ClientCertKey`
(see `CACertKey`). -/
def ClientCertKey : String := "clientCert"

/-- Modelled from the spec: the constant
`banzaicloudv1alpha1.ClientPrivateKeyKey` (see `CACertKey`). -/
def ClientPrivateKeyKey : String := "clientKey"

/-- Constant `metav1.NamespaceAll` of the Kubernetes API. -/
def NamespaceAll : String := ""

/-- The verb `%d` of `fmt.Sprintf` on an integer. -/
def formatInt : Int → String
  | .ofNat n => Nat.repr n
  | .negSucc n => "-" ++ Nat.repr (n + 1)

/-! ## Name derivation -/

/-- Function `getCommonName`. -/
def getCommonName (E : Env) (cluster : KafkaCluster) : String :=
  if cluster.Spec.HeadlessServiceEnabled then
    E.HeadlessServiceTemplate cluster.Name ++ "." ++ cluster.Namespace ++ ".svc.cluster.local"
  else
    E.AllBrokerServiceTemplate cluster.Name ++ "." ++ cluster.Namespace ++ ".svc.cluster.local"

/-- Body of the loop of `getDNSNames` for one broker. -/
def getDNSNames.step (E : Env) (cluster : KafkaCluster) (dnsNames : List String) (broker : Broker) :
    List String :=
  if cluster.Spec.HeadlessServiceEnabled then
    let dnsNames := dnsNames ++
      [cluster.Name ++ "-" ++ formatInt broker.Id ++ "." ++ E.HeadlessServiceTemplate cluster.Name
        ++ "." ++ cluster.Namespace ++ ".svc.cluster.local"]
    let dnsNames := dnsNames ++
      [cluster.Name ++ "-" ++ formatInt broker.Id ++ "." ++ E.HeadlessServiceTemplate cluster.Name
        ++ "." ++ cluster.Namespace ++ ".svc"]
    dnsNames ++
      [cluster.Name ++ "-" ++ formatInt broker.Id ++ "." ++ E.HeadlessServiceTemplate cluster.Name
        ++ "." ++ cluster.Namespace]
  else
    let dnsNames := dnsNames ++
      [cluster.Name ++ "-" ++ formatInt broker.Id ++ "." ++ cluster.Namespace ++ ".svc.cluster.local"]
    let dnsNames := dnsNames ++
      [cluster.Name ++ "-" ++ formatInt broker.Id ++ "." ++ cluster.Namespace ++ ".svc"]
    dnsNames ++
      [cluster.Name ++ "-" ++ formatInt broker.Id ++ "." ++ cluster.Namespace]

/-- Function `getDNSNames`. -/
def getDNSNames (E : Env) (cluster : KafkaCluster) : List String :=
  let dnsNames : List String := []
  let dnsNames := cluster.Spec.Brokers.foldl (getDNSNames.step E cluster) dnsNames
  if cluster.Spec.HeadlessServiceEnabled then
    let dnsNames := dnsNames ++ [getCommonName E cluster]
    let dnsNames := dnsNames ++
      [E.HeadlessServiceTemplate cluster.Name ++ "." ++ cluster.Namespace ++ ".svc"]
    let dnsNames := dnsNames ++
      [E.HeadlessServiceTemplate cluster.Name ++ "." ++ cluster.Namespace]
    dnsNames ++ [E.HeadlessServiceTemplate cluster.Name]
  else
    let dnsNames := dnsNames ++ [getCommonName E cluster]
    let dnsNames := dnsNames ++
      [E.AllBrokerServiceTemplate cluster.Name ++ "." ++ cluster.Namespace ++ ".svc"]
    let dnsNames := dnsNames ++
      [E.AllBrokerServiceTemplate cluster.Name ++ "." ++ cluster.Namespace]
    dnsNames ++ [E.AllBrokerServiceTemplate cluster.Name]

/-! ## The resource store -/

/-- The client of the resource store: what a lookup of each name answers, and
the lookups performed so far, oldest first. -/
structure Client where
  store : NamespacedName → Except APIError Secret
  reads : List NamespacedName

/-- Method `Client.Get` for a secret: the outcome of the lookup and the client
after it. -/
def Client.Get (c : Client) (key : NamespacedName) : Except APIError Secret × Client :=
  (c.store key, { c with reads := c.reads ++ [key] })

/-- Type `Reconciler`: the cluster being reconciled and the client. -/
structure Reconciler where
  KafkaCluster : KafkaCluster
  Client : Client

/-! ## Ownership -/

/-- The reference `metav1.NewControllerRef` builds for the cluster. -/
def controllerRef (owner : KafkaCluster) : OwnerReference :=
  { Kind := "KafkaCluster", Name := owner.Name, UID := owner.UID,
    Controller := true, BlockOwnerDeletion := true }

/-- Whether two owner references name the same object. -/
def referSameObject (a b : OwnerReference) : Bool :=
  a.Kind == b.Kind && a.Name == b.Name

/-- The search of `SetControllerReference` through the existing references,
from index `i` on: the index of the last one that names the same object as
`ref`, `fi` when there is none. -/
def lastSameIndex (ref : OwnerReference) : List OwnerReference → Nat → Option Nat → Option Nat
  | [], _, fi => fi
  | r :: rest, i, fi =>
    lastSameIndex ref rest (i + 1) (if referSameObject ref r then some i else fi)

/-- The owner references after `SetControllerReference` has succeeded: the
new reference replaces the existing one for the same owner, and is appended
when there is none. -/
def upsertOwnerReference (ref : OwnerReference) (existingRefs : List OwnerReference) :
    List OwnerReference :=
  match lastSameIndex ref existingRefs 0 none with
  | none => existingRefs ++ [ref]
  | some fi => existingRefs.set fi ref

/-- The object once the controller reference to the owner is among its owner
references. -/
def RuntimeObject.withControllerReference (owner : KafkaCluster) (object : RuntimeObject) :
    RuntimeObject :=
  object.setOwnerReferences (upsertOwnerReference (controllerRef owner) object.meta.OwnerReferences)

/-- Call `controllerutil.SetControllerReference(owner, object, r.Scheme)`: the
error returned and the object after the call. On success the owner references
of the object hold the controller reference to the owner; on failure the
object is left as it was. -/
def SetControllerReference (E : Env) (owner : KafkaCluster) (object : RuntimeObject) :
    Option APIError × RuntimeObject :=
  match E.setControllerReferenceErr owner object with
  | some err => (some err, object)
  | none => (none, object.withControllerReference owner)

/-! ## Planning the PKI resources -/

/-- The self-signed issuer as `kafkapki` builds it, before the controller
reference is set. -/
def kafkapki.selfsigner (E : Env) (cluster : KafkaCluster) : RuntimeObject :=
  let selfSignerMeta := E.ObjectMeta (E.brokerSelfSignerTemplate cluster.Name)
    (E.labelsForKafkaPKI cluster.Name) cluster
  let selfSignerMeta := { selfSignerMeta with Namespace := NamespaceAll }
  .clusterIssuer {
    ObjectMeta := selfSignerMeta
    Spec := { IssuerConfig := { CA := none, SelfSigned := some {} } } }

/-- The CA certificate as `kafkapki` builds it, before the controller
reference is set. -/
def kafkapki.ca (E : Env) (cluster : KafkaCluster) : RuntimeObject :=
  let rootCertMeta := E.ObjectMeta (E.brokerCACertTemplate cluster.Name)
    (E.labelsForKafkaPKI cluster.Name) cluster
  let rootCertMeta := { rootCertMeta with Namespace := "cert-manager" }
  .certificate {
    ObjectMeta := rootCertMeta
    Spec := {
      SecretName := E.brokerCACertTemplate cluster.Name
      KeyEncoding := KeyEncoding.unset
      CommonName := "kafkaca." ++ cluster.Namespace ++ ".cluster.local"
      DNSNames := []
      IsCA := true
      IssuerRef := { Name := E.brokerSelfSignerTemplate cluster.Name, Kind := "ClusterIssuer" } } }

/-- The cluster issuer backed by the CA secret as `kafkapki` builds it (in
both modes), before the controller reference is set. -/
def kafkapki.clusterissuer (E : Env) (cluster : KafkaCluster) : RuntimeObject :=
  let clusterIssuerMeta := E.ObjectMeta (E.BrokerIssuerTemplate cluster.Name)
    (E.labelsForKafkaPKI cluster.Name) cluster
  let clusterIssuerMeta := { clusterIssuerMeta with Namespace := NamespaceAll }
  .clusterIssuer {
    ObjectMeta := clusterIssuerMeta
    Spec := { IssuerConfig := {
      CA := some { SecretName := E.brokerCACertTemplate cluster.Name }, SelfSigned := none } } }

/-- The broker certificate as `kafkapki` builds it, before the controller
reference is set. -/
def kafkapki.brokerCert (E : Env) (cluster : KafkaCluster) : RuntimeObject :=
  .certificate {
    ObjectMeta := E.ObjectMeta (E.brokerServerCertTemplate cluster.Name)
      (E.labelsForKafkaPKI cluster.Name) cluster
    Spec := {
      SecretName := E.brokerServerCertTemplate cluster.Name
      KeyEncoding := KeyEncoding.PKCS8
      CommonName := getCommonName E cluster
      DNSNames := getDNSNames E cluster
      IsCA := false
      IssuerRef := { Name := E.BrokerIssuerTemplate cluster.Name, Kind := "ClusterIssuer" } } }

/-- The controller certificate as `kafkapki` builds it, before the controller
reference is set. -/
def kafkapki.controllerCert (E : Env) (cluster : KafkaCluster) : RuntimeObject :=
  .certificate {
    ObjectMeta := E.ObjectMeta (E.BrokerControllerTemplate cluster.Name)
      (E.labelsForKafkaPKI cluster.Name) cluster
    Spec := {
      SecretName := E.BrokerControllerTemplate cluster.Name
      KeyEncoding := KeyEncoding.PKCS8
      CommonName := cluster.Name ++ "-controller"
      DNSNames := []
      IsCA := false
      IssuerRef := { Name := E.BrokerIssuerTemplate cluster.Name, Kind := "ClusterIssuer" } } }

/-- The CA secret `kafkapki` builds from the provided secret, before the
controller reference is set. -/
def kafkapki.caSecret (E : Env) (cluster : KafkaCluster) (secret : Secret) : RuntimeObject :=
  let caKey := DataMap.get secret.Data E.CAPrivateKeyKey
  let caCert := DataMap.get secret.Data CACertKey
  .secret {
    ObjectMeta := E.ObjectMeta (E.brokerCACertTemplate cluster.Name)
      (E.labelsForKafkaPKI cluster.Name) cluster
    Data := DataMap.set (DataMap.set (DataMap.set [] E.CoreCACertKey caCert) E.TLSCertKey caCert)
      E.TLSPrivateKeyKey caKey }

/-- Method `Reconciler.kafkapki`: the objects and the error returned, and the
client after the call. -/
def Reconciler.kafkapki (E : Env) (r : Reconciler) : (List RuntimeObject × Option Error) × KafkaPKI.Client :=
  if r.KafkaCluster.Spec.ListenersConfig.SSLSecrets.Create then
    -- A self-signer for the CA Certificate
    match SetControllerReference E r.KafkaCluster (kafkapki.selfsigner E r.KafkaCluster) with
    | (some err, _) => (([], some (Error.WrapIf err "could not set controller reference")), r.Client)
    | (none, selfsigner) =>
    -- The CA Certificate
    match SetControllerReference E r.KafkaCluster (kafkapki.ca E r.KafkaCluster) with
    | (some err, _) => (([], some (Error.WrapIf err "could not set controller reference")), r.Client)
    | (none, ca) =>
    -- A cluster issuer backed by the CA certificate
    match SetControllerReference E r.KafkaCluster (kafkapki.clusterissuer E r.KafkaCluster) with
    | (some err, _) => (([], some (Error.WrapIf err "could not set controller reference")), r.Client)
    | (none, clusterissuer) =>
    -- The broker certificates
    match SetControllerReference E r.KafkaCluster (kafkapki.brokerCert E r.KafkaCluster) with
    | (some err, _) => (([], some (Error.WrapIf err "could not set controller reference")), r.Client)
    | (none, brokerCert) =>
    -- And finally one for us so we can manage topics/users
    match SetControllerReference E r.KafkaCluster (kafkapki.controllerCert E r.KafkaCluster) with
    | (some err, _) => (([], some (Error.WrapIf err "could not set controller reference")), r.Client)
    | (none, controllerCert) =>
    (([selfsigner, ca, clusterissuer, brokerCert, controllerCert], none), r.Client)
  else
    -- If we aren't creating the secrets we need a cluster issuer made from the provided secret
    match r.Client.Get { Namespace := r.KafkaCluster.Namespace,
                         Name := r.KafkaCluster.Spec.ListenersConfig.SSLSecrets.TLSSecretName } with
    | (Except.error err, client) =>
      if err.IsNotFound then
        (([], some (Error.ResourceNotReady err "could not find provided tls secret")), client)
      else
        (([], some (Error.APIFailure err "could not lookup provided tls secret")), client)
    | (Except.ok secret, client) =>
    match SetControllerReference E r.KafkaCluster (kafkapki.caSecret E r.KafkaCluster secret) with
    | (some err, _) => (([], some (Error.WrapIf err "could not set controller reference")), client)
    | (none, caSecret) =>
    match SetControllerReference E r.KafkaCluster (kafkapki.clusterissuer E r.KafkaCluster) with
    | (some err, _) => (([], some (Error.WrapIf err "could not set controller reference")), client)
    | (none, clusterissuer) =>
    (([caSecret, clusterissuer], none), client)

/-! ## Assembling the bootstrap secret -/

/-- Method `Reconciler.getBootstrapSSLSecret`: the values of `certs`, `passw`
and `err` at the return, and the client after the call. -/
def Reconciler.getBootstrapSSLSecret (E : Env) (r : Reconciler) :
    (Option Secret × Option Secret × Option Error) × KafkaPKI.Client :=
  -- get server (peer) certificate
  match r.Client.Get { Name := E.brokerServerCertTemplate r.KafkaCluster.Name,
                       Namespace := r.KafkaCluster.Namespace } with
  | (Except.error err, client) =>
    if err.IsNotFound then
      ((none, none, some (Error.ResourceNotReady err "server secret not ready")), client)
    else
      ((none, none, some (Error.APIFailure err "could not get server cert")), client)
  | (Except.ok serverSecret, client) =>
  match client.Get { Name := E.BrokerControllerTemplate r.KafkaCluster.Name,
                     Namespace := r.KafkaCluster.Namespace } with
  | (Except.error err, client) =>
    if err.IsNotFound then
      ((none, none, some (Error.ResourceNotReady err "client secret not ready")), client)
    else
      ((none, none, some (Error.APIFailure err "could not get client cert")), client)
  | (Except.ok clientSecret, client) =>
  let certs : Secret := {
    ObjectMeta := E.ObjectMeta r.KafkaCluster.Spec.ListenersConfig.SSLSecrets.TLSSecretName
      (E.labelsForKafkaPKI r.KafkaCluster.Name) r.KafkaCluster
    Data := DataMap.set (DataMap.set (DataMap.set (DataMap.set (DataMap.set []
      CACertKey (DataMap.get serverSecret.Data E.CoreCACertKey))
      PeerCertKey (DataMap.get serverSecret.Data E.TLSCertKey))
      PeerPrivateKeyKey (DataMap.get serverSecret.Data E.TLSPrivateKeyKey))
      ClientCertKey (DataMap.get clientSecret.Data E.TLSCertKey))
      ClientPrivateKeyKey (DataMap.get clientSecret.Data E.TLSPrivateKeyKey) }
  let passw : Secret := {
    ObjectMeta := E.ObjectMeta r.KafkaCluster.Spec.ListenersConfig.SSLSecrets.JKSPasswordName
      (E.labelsForKafkaPKI r.KafkaCluster.Name) r.KafkaCluster
    Data := DataMap.set [] E.PasswordKey (E.GeneratePass 16) }
  ((some certs, some passw, none), client)

/-! ## The statements of the specification, and sample data -/

/-- The virtual-service name of the specification: the headless service name
of the cluster when the headless flag is set, the all-broker service name
otherwise. -/
def specVirtualServiceName (E : Env) (cluster : KafkaCluster) : String :=
  if cluster.Spec.HeadlessServiceEnabled then E.HeadlessServiceTemplate cluster.Name
  else E.AllBrokerServiceTemplate cluster.Name

/-- The three forms of one broker in the specification: fully qualified,
service qualified and bare, through the virtual service when headless and
without it otherwise. -/
def specBrokerForms (E : Env) (cluster : KafkaCluster) (broker : Broker) : List String :=
  if cluster.Spec.HeadlessServiceEnabled then
    [cluster.Name ++ "-" ++ formatInt broker.Id ++ "." ++ specVirtualServiceName E cluster ++ "."
        ++ cluster.Namespace ++ ".svc.cluster.local",
     cluster.Name ++ "-" ++ formatInt broker.Id ++ "." ++ specVirtualServiceName E cluster ++ "."
        ++ cluster.Namespace ++ ".svc",
     cluster.Name ++ "-" ++ formatInt broker.Id ++ "." ++ specVirtualServiceName E cluster ++ "."
        ++ cluster.Namespace]
  else
    [cluster.Name ++ "-" ++ formatInt broker.Id ++ "." ++ cluster.Namespace ++ ".svc.cluster.local",
     cluster.Name ++ "-" ++ formatInt broker.Id ++ "." ++ cluster.Namespace ++ ".svc",
     cluster.Name ++ "-" ++ formatInt broker.Id ++ "." ++ cluster.Namespace]

/-- The four cluster-wide forms of the specification: the common name and the
three decreasing qualifications of the virtual-service name. -/
def specClusterForms (E : Env) (cluster : KafkaCluster) : List String :=
  [getCommonName E cluster,
   specVirtualServiceName E cluster ++ "." ++ cluster.Namespace ++ ".svc",
   specVirtualServiceName E cluster ++ "." ++ cluster.Namespace,
   specVirtualServiceName E cluster]

/-- A sample environment: suffix templates, distinct keys, a metadata helper
that starts without owner references, registrations that succeed and a
constant passphrase. -/
def sampleEnv : Env where
  brokerCACertTemplate := fun name => name ++ "-ca-certificate"
  brokerSelfSignerTemplate := fun name => name ++ "-self-signer"
  brokerServerCertTemplate := fun name => name ++ "-server-certificate"
  BrokerIssuerTemplate := fun name => name ++ "-issuer"
  BrokerControllerTemplate := fun name => name ++ "-controller"
  HeadlessServiceTemplate := fun name => name ++ "-headless"
  AllBrokerServiceTemplate := fun name => name ++ "-all-broker"
  labelsForKafkaPKI := fun name => [("app", "kafka"), ("kafka_cr", name)]
  ObjectMeta := fun name labels cluster =>
    { Name := name, Namespace := cluster.Namespace, Labels := labels, OwnerReferences := [] }
  CAPrivateKeyKey := "caKey"
  CoreCACertKey := "ca.crt"
  PasswordKey := "password"
  TLSCertKey := "tls.crt"
  TLSPrivateKeyKey := "tls.key"
  setControllerReferenceErr := fun _ _ => none
  GeneratePass := fun n => List.replicate n 97

/-- A sample cluster: two brokers behind the all-broker service, with the
given mode and name of the external secret. -/
def sampleCluster (create : Bool) (tlsSecretName : String) : KafkaCluster :=
  { Name := "kafka", Namespace := "prod", UID := "0a1b",
    Spec := {
      HeadlessServiceEnabled := false
      ListenersConfig := { SSLSecrets := {
        TLSSecretName := tlsSecretName, JKSPasswordName := "kafka-jks", Create := create } }
      Brokers := [{ Id := 0 }, { Id := 1 }] } }

/-- The key under which `kafkapki` looks up the provided secret. -/
def kafkapki.secretKey (r : Reconciler) : NamespacedName :=
  { Namespace := r.KafkaCluster.Namespace,
    Name := r.KafkaCluster.Spec.ListenersConfig.SSLSecrets.TLSSecretName }

/-- The objects `kafkapki` builds, in the order in which it builds them and
registers their owner: five when it creates the trust chain, the two made from
the provided secret otherwise, none when that secret cannot be read. -/
def kafkapki.planned (E : Env) (r : Reconciler) : List RuntimeObject :=
  if r.KafkaCluster.Spec.ListenersConfig.SSLSecrets.Create then
    [kafkapki.selfsigner E r.KafkaCluster, kafkapki.ca E r.KafkaCluster,
     kafkapki.clusterissuer E r.KafkaCluster, kafkapki.brokerCert E r.KafkaCluster,
     kafkapki.controllerCert E r.KafkaCluster]
  else
    match r.Client.store (kafkapki.secretKey r) with
    | Except.ok secret =>
      [kafkapki.caSecret E r.KafkaCluster secret, kafkapki.clusterissuer E r.KafkaCluster]
    | Except.error _ => []

/-- The first refusal met when the owner of the objects of a list is
registered in order. -/
def firstRefusal (E : Env) (owner : KafkaCluster) : List RuntimeObject → Option APIError
  | [] => none
  | o :: rest =>
    match E.setControllerReferenceErr owner o with
    | some err => some err
    | none => firstRefusal E owner rest

/-- The key under which `getBootstrapSSLSecret` looks up the server record. -/
def getBootstrapSSLSecret.serverKey (E : Env) (r : Reconciler) : NamespacedName :=
  { Name := E.brokerServerCertTemplate r.KafkaCluster.Name, Namespace := r.KafkaCluster.Namespace }

/-- The key under which `getBootstrapSSLSecret` looks up the controller
record. -/
def getBootstrapSSLSecret.clientKey (E : Env) (r : Reconciler) : NamespacedName :=
  { Name := E.BrokerControllerTemplate r.KafkaCluster.Name, Namespace := r.KafkaCluster.Namespace }

/-- A store in which nothing is found. -/
def emptyStore : NamespacedName → Except APIError Secret :=
  fun key => Except.error { IsNotFound := true, text := "secrets " ++ key.Name ++ " not found" }

/-- A store that fails every lookup with an error other than not-found. -/
def brokenStore : NamespacedName → Except APIError Secret :=
  fun _ => Except.error { IsNotFound := false, text := "connection refused" }

/-- A secret as an external party or the certificate issuer stores it. -/
def sampleSecret (name : String) : Secret :=
  { ObjectMeta := { Name := name, Namespace := "prod", Labels := [], OwnerReferences := [] }
    Data := [("caCert", [1, 2]), ("caKey", [3]), ("ca.crt", [4]), ("tls.crt", [5, 6]),
             ("tls.key", [7])] }

/-- A store that holds `sampleSecret` under every name. -/
def fullStore : NamespacedName → Except APIError Secret :=
  fun key => Except.ok (sampleSecret key.Name)

/-- A store that holds the server record only. -/
def serverOnlyStore : NamespacedName → Except APIError Secret :=
  fun key => if key.Name = "kafka-server-certificate" then Except.ok (sampleSecret key.Name)
    else emptyStore key

/-- A reconciler for the sample cluster over a store on which nothing has
been read yet. -/
def sampleReconciler (create : Bool) (tlsSecretName : String)
    (store : NamespacedName → Except APIError Secret) : Reconciler :=
  { KafkaCluster := sampleCluster create tlsSecretName, Client := { store := store, reads := [] } }

/-- The sample environment with a controller runtime that refuses to register
the owner of the object of the given name. -/
def refusingEnv (name : String) : Env :=
  { sampleEnv with
    setControllerReferenceErr := fun _ o =>
      if o.meta.Name = name then some { IsNotFound := false, text := "already owned" } else none }

/-! ## Name derivation: proofs -/

theorem foldl_step_eq (E : Env) (cluster : KafkaCluster) (brokers : List Broker)
    (acc : List String) :
    brokers.foldl (getDNSNames.step E cluster) acc
      = acc ++ brokers.flatMap (specBrokerForms E cluster) := by
  induction brokers generalizing acc with
  | nil => simp
  | cons b bs ih =>
    rw [List.foldl_cons, ih, List.flatMap_cons]
    cases h : cluster.Spec.HeadlessServiceEnabled <;>
      simp [getDNSNames.step, specBrokerForms, specVirtualServiceName, h]

theorem length_specBrokerForms (E : Env) (cluster : KafkaCluster) (b : Broker) :
    (specBrokerForms E cluster b).length = 3 := by
  cases h : cluster.Spec.HeadlessServiceEnabled <;> simp [specBrokerForms, h]

theorem length_flatMap_specBrokerForms (E : Env) (cluster : KafkaCluster) (brokers : List Broker) :
    (brokers.flatMap (specBrokerForms E cluster)).length = 3 * brokers.length := by
  induction brokers with
  | nil => simp
  | cons b bs ih =>
    rw [List.flatMap_cons, List.length_append, ih, length_specBrokerForms, List.length_cons]
    omega

theorem getDNSNames_eq_spec (E : Env) (cluster : KafkaCluster) :
    getDNSNames E cluster
      = cluster.Spec.Brokers.flatMap (specBrokerForms E cluster) ++ specClusterForms E cluster := by
  cases h : cluster.Spec.HeadlessServiceEnabled <;>
    simp [getDNSNames, foldl_step_eq, specClusterForms, specVirtualServiceName, h]

/-- C1: `getDNSNames` returns, for every cluster, the three forms of each
broker in the order of the broker list followed by exactly the four
cluster-wide forms `[getCommonName, V.ns.svc, V.ns, V]`; for an empty broker
list the result is those four entries, and for name kafka, namespace prod,
brokers 0 and 1, not headless, the list begins with the three forms of broker
0 without a service in them. -/
theorem getDNSNames_contract (E : Env) :
    (∀ cluster : KafkaCluster,
      getDNSNames E cluster
        = cluster.Spec.Brokers.flatMap (specBrokerForms E cluster) ++ specClusterForms E cluster)
    ∧ (∀ (name ns uid : String) (headless : Bool) (lc : ListenersConfig),
        getDNSNames E ⟨name, ns, uid, ⟨headless, lc, []⟩⟩
          = specClusterForms E ⟨name, ns, uid, ⟨headless, lc, []⟩⟩)
    ∧ (∀ (uid : String) (lc : ListenersConfig),
        (getDNSNames E ⟨"kafka", "prod", uid, ⟨false, lc, [⟨0⟩, ⟨1⟩]⟩⟩).take 3
          = ["kafka-0.prod.svc.cluster.local", "kafka-0.prod.svc", "kafka-0.prod"]) := by
  refine ⟨getDNSNames_eq_spec E, ?_, ?_⟩
  · intro name ns uid headless lc
    rw [getDNSNames_eq_spec]
    simp
  · intro uid lc
    rw [getDNSNames_eq_spec]
    simp only [List.flatMap_cons, specBrokerForms, Bool.false_eq_true, if_false, List.cons_append,
      List.take_succ_cons, List.take_zero]
    decide

/-- C2: for every cluster with N brokers, repeated ids included and whatever
the headless flag, `getDNSNames` returns a list of length 3N + 4. -/
theorem getDNSNames_length (E : Env) (cluster : KafkaCluster) :
    (getDNSNames E cluster).length = 3 * cluster.Spec.Brokers.length + 4 := by
  rw [getDNSNames_eq_spec, List.length_append, length_flatMap_specBrokerForms]
  simp [specClusterForms]

/-! ## Ownership: proofs -/

theorem lastSameIndex_bound (ref : OwnerReference) (refs : List OwnerReference) (i : Nat)
    (fi : Option Nat) (k : Nat) (h : lastSameIndex ref refs i fi = some k) :
    fi = some k ∨ (i ≤ k ∧ k < i + refs.length) := by
  induction refs generalizing i fi with
  | nil => exact Or.inl h
  | cons r rest ih =>
    rw [lastSameIndex] at h
    rcases ih (i + 1) _ h with h' | ⟨h1, h2⟩
    · by_cases hs : referSameObject ref r = true
      · rw [if_pos hs] at h'
        right
        simp only [Option.some.injEq] at h'
        simp only [List.length_cons]
        omega
      · rw [if_neg hs] at h'
        exact Or.inl h'
    · right
      simp only [List.length_cons]
      omega

theorem mem_upsertOwnerReference (ref : OwnerReference) (refs : List OwnerReference) :
    ref ∈ upsertOwnerReference ref refs := by
  unfold upsertOwnerReference
  cases h : lastSameIndex ref refs 0 none with
  | none => simp
  | some k =>
    rcases lastSameIndex_bound ref refs 0 none k h with h' | ⟨_, h2⟩
    · exact absurd h' (by simp)
    · exact List.mem_set refs k (by omega) ref

theorem controllerRef_mem_withControllerReference (owner : KafkaCluster) (o : RuntimeObject) :
    controllerRef owner ∈ (o.withControllerReference owner).meta.OwnerReferences := by
  cases o <;>
    simp [RuntimeObject.withControllerReference, RuntimeObject.setOwnerReferences,
      RuntimeObject.meta, mem_upsertOwnerReference]

theorem SetControllerReference_none (E : Env) (owner : KafkaCluster) (o : RuntimeObject)
    (h : E.setControllerReferenceErr owner o = none) :
    SetControllerReference E owner o = (none, o.withControllerReference owner) := by
  simp [SetControllerReference, h]

theorem SetControllerReference_some (E : Env) (owner : KafkaCluster) (o : RuntimeObject)
    (err : APIError) (h : E.setControllerReferenceErr owner o = some err) :
    SetControllerReference E owner o = (some err, o) := by
  simp [SetControllerReference, h]

/-! ## Planning: the method as one pass of registration over the planned objects -/

theorem kafkapki_create (E : Env) (r : Reconciler)
    (hc : r.KafkaCluster.Spec.ListenersConfig.SSLSecrets.Create = true) :
    Reconciler.kafkapki E r =
      match firstRefusal E r.KafkaCluster (kafkapki.planned E r) with
      | some err => (([], some (Error.WrapIf err "could not set controller reference")), r.Client)
      | none =>
        (((kafkapki.planned E r).map (RuntimeObject.withControllerReference r.KafkaCluster), none),
          r.Client) := by
  simp only [Reconciler.kafkapki, kafkapki.planned, hc, if_true, firstRefusal]
  cases h1 : E.setControllerReferenceErr r.KafkaCluster (kafkapki.selfsigner E r.KafkaCluster) with
  | some e => simp [SetControllerReference, h1]
  | none =>
  cases h2 : E.setControllerReferenceErr r.KafkaCluster (kafkapki.ca E r.KafkaCluster) with
  | some e => simp [SetControllerReference, h1, h2]
  | none =>
  cases h3 : E.setControllerReferenceErr r.KafkaCluster (kafkapki.clusterissuer E r.KafkaCluster) with
  | some e => simp [SetControllerReference, h1, h2, h3]
  | none =>
  cases h4 : E.setControllerReferenceErr r.KafkaCluster (kafkapki.brokerCert E r.KafkaCluster) with
  | some e => simp [SetControllerReference, h1, h2, h3, h4]
  | none =>
  cases h5 : E.setControllerReferenceErr r.KafkaCluster (kafkapki.controllerCert E r.KafkaCluster) with
  | some e => simp [SetControllerReference, h1, h2, h3, h4, h5]
  | none => simp [SetControllerReference, h1, h2, h3, h4, h5]

theorem kafkapki_provided_error (E : Env) (r : Reconciler)
    (hc : r.KafkaCluster.Spec.ListenersConfig.SSLSecrets.Create = false) (err : APIError)
    (hs : r.Client.store (kafkapki.secretKey r) = Except.error err) :
    Reconciler.kafkapki E r =
      (([], some (if err.IsNotFound then Error.ResourceNotReady err "could not find provided tls secret"
                  else Error.APIFailure err "could not lookup provided tls secret")),
        { r.Client with reads := r.Client.reads ++ [kafkapki.secretKey r] }) := by
  unfold kafkapki.secretKey at hs
  cases hn : err.IsNotFound <;>
    simp [Reconciler.kafkapki, kafkapki.secretKey, hc, Client.Get, hs, hn]

theorem kafkapki_provided_ok (E : Env) (r : Reconciler)
    (hc : r.KafkaCluster.Spec.ListenersConfig.SSLSecrets.Create = false) (secret : Secret)
    (hs : r.Client.store (kafkapki.secretKey r) = Except.ok secret) :
    Reconciler.kafkapki E r =
      match firstRefusal E r.KafkaCluster (kafkapki.planned E r) with
      | some err =>
        (([], some (Error.WrapIf err "could not set controller reference")),
          { r.Client with reads := r.Client.reads ++ [kafkapki.secretKey r] })
      | none =>
        (((kafkapki.planned E r).map (RuntimeObject.withControllerReference r.KafkaCluster), none),
          { r.Client with reads := r.Client.reads ++ [kafkapki.secretKey r] }) := by
  simp only [kafkapki.planned, hc, hs, firstRefusal]
  unfold kafkapki.secretKey at hs
  cases h1 : E.setControllerReferenceErr r.KafkaCluster (kafkapki.caSecret E r.KafkaCluster secret) with
  | some e => simp [Reconciler.kafkapki, kafkapki.secretKey, hc, Client.Get, hs, SetControllerReference, h1]
  | none =>
  cases h2 : E.setControllerReferenceErr r.KafkaCluster (kafkapki.clusterissuer E r.KafkaCluster) with
  | some e => simp [Reconciler.kafkapki, kafkapki.secretKey, hc, Client.Get, hs, SetControllerReference, h1, h2]
  | none => simp [Reconciler.kafkapki, kafkapki.secretKey, hc, Client.Get, hs, SetControllerReference, h1, h2]

theorem firstRefusal_eq_none (E : Env) (owner : KafkaCluster) (l : List RuntimeObject)
    (h : ∀ o ∈ l, E.setControllerReferenceErr owner o = none) : firstRefusal E owner l = none := by
  induction l with
  | nil => rfl
  | cons o rest ih =>
    have ho := h o (List.mem_cons_self o rest)
    simp only [firstRefusal, ho]
    exact ih (fun o' ho' => h o' (List.mem_cons_of_mem o ho'))

theorem firstRefusal_eq_some (E : Env) (owner : KafkaCluster) (l : List RuntimeObject) (k : Nat)
    (hk : k < l.length) (err : APIError)
    (hbefore : ∀ j (hj : j < k), E.setControllerReferenceErr owner (l.get ⟨j, Nat.lt_trans hj hk⟩) = none)
    (hat : E.setControllerReferenceErr owner (l.get ⟨k, hk⟩) = some err) :
    firstRefusal E owner l = some err := by
  induction l generalizing k with
  | nil => exact absurd hk (by simp)
  | cons o rest ih =>
    cases k with
    | zero =>
      simp only [List.get_eq_getElem, List.getElem_cons_zero] at hat
      simp [firstRefusal, hat]
    | succ k =>
      have h0 := hbefore 0 (Nat.succ_pos k)
      simp only [List.get_eq_getElem, List.getElem_cons_zero] at h0
      simp only [firstRefusal, h0]
      refine ih k (Nat.lt_of_succ_lt_succ hk) ?_ ?_
      · intro j hj
        have := hbefore (j + 1) (Nat.succ_lt_succ hj)
        simpa using this
      · simpa using hat

theorem firstRefusal_none_of_no_error (E : Env) (r : Reconciler)
    (hc : r.KafkaCluster.Spec.ListenersConfig.SSLSecrets.Create = true)
    (hret : (Reconciler.kafkapki E r).1.2 = none) :
    firstRefusal E r.KafkaCluster (kafkapki.planned E r) = none := by
  rw [kafkapki_create E r hc] at hret
  cases h : firstRefusal E r.KafkaCluster (kafkapki.planned E r) with
  | none => rfl
  | some e => rw [h] at hret; simp at hret

/-! ## Planning: the claims -/

/-- C3: with create-own-trust set and every registration of the owner
succeeding, `kafkapki` returns no error and five objects in this order: the
self-signed issuer, the root certificate (a CA, common name
`kafkaca.<namespace>.cluster.local`), the CA-backed issuer, the server
certificate (common name `getCommonName`, DNS names `getDNSNames`) and the
controller certificate (common name `<name>-controller`); the client comes
back as it was, no lookup having been made. -/
theorem kafkapki_create_descriptors (E : Env) (r : Reconciler)
    (hc : r.KafkaCluster.Spec.ListenersConfig.SSLSecrets.Create = true)
    (hreg : ∀ o ∈ kafkapki.planned E r, E.setControllerReferenceErr r.KafkaCluster o = none) :
    ∃ selfsigner ca clusterissuer brokerCert controllerCert,
      Reconciler.kafkapki E r
        = (([RuntimeObject.clusterIssuer selfsigner, RuntimeObject.certificate ca,
             RuntimeObject.clusterIssuer clusterissuer, RuntimeObject.certificate brokerCert,
             RuntimeObject.certificate controllerCert], none), r.Client)
      ∧ selfsigner.Spec.IssuerConfig = { CA := none, SelfSigned := some {} }
      ∧ ca.Spec.IsCA = true
      ∧ ca.Spec.CommonName = "kafkaca." ++ r.KafkaCluster.Namespace ++ ".cluster.local"
      ∧ (∃ anchor, clusterissuer.Spec.IssuerConfig = { CA := some anchor, SelfSigned := none })
      ∧ brokerCert.Spec.CommonName = getCommonName E r.KafkaCluster
      ∧ brokerCert.Spec.DNSNames = getDNSNames E r.KafkaCluster
      ∧ controllerCert.Spec.CommonName = r.KafkaCluster.Name ++ "-controller" := by
  rw [kafkapki_create E r hc, firstRefusal_eq_none E r.KafkaCluster _ hreg]
  simp only [kafkapki.planned, hc, if_true, List.map, kafkapki.selfsigner, kafkapki.ca,
    kafkapki.clusterissuer, kafkapki.brokerCert, kafkapki.controllerCert,
    RuntimeObject.withControllerReference, RuntimeObject.setOwnerReferences]
  exact ⟨_, _, _, _, _, rfl, rfl, rfl, rfl, ⟨_, rfl⟩, rfl, rfl, rfl⟩

/-- The five objects of the sample cluster, planned over a store that is out of order. -/
theorem kafkapki_create_descriptors_witness :
    (sampleReconciler true "" brokenStore).KafkaCluster.Spec.ListenersConfig.SSLSecrets.Create = true
    ∧ ∃ selfsigner ca clusterissuer brokerCert controllerCert,
      Reconciler.kafkapki sampleEnv (sampleReconciler true "" brokenStore)
        = (([RuntimeObject.clusterIssuer selfsigner, RuntimeObject.certificate ca,
             RuntimeObject.clusterIssuer clusterissuer, RuntimeObject.certificate brokerCert,
             RuntimeObject.certificate controllerCert], none),
            (sampleReconciler true "" brokenStore).Client)
      ∧ selfsigner.Spec.IssuerConfig = { CA := none, SelfSigned := some {} }
      ∧ ca.Spec.IsCA = true
      ∧ ca.Spec.CommonName = "kafkaca." ++ "prod" ++ ".cluster.local"
      ∧ (∃ anchor, clusterissuer.Spec.IssuerConfig = { CA := some anchor, SelfSigned := none })
      ∧ brokerCert.Spec.CommonName = getCommonName sampleEnv (sampleCluster true "")
      ∧ brokerCert.Spec.DNSNames = getDNSNames sampleEnv (sampleCluster true "")
      ∧ controllerCert.Spec.CommonName = "kafka" ++ "-controller" :=
  ⟨rfl, kafkapki_create_descriptors sampleEnv (sampleReconciler true "" brokenStore) rfl
    (fun _ _ => rfl)⟩

/-- C4: with create-own-trust unset, `kafkapki` looks up the secret named by
`TLSSecretName` in the namespace of the cluster; when that lookup reports
not-found it returns the empty list and a `ResourceNotReady` error, and when
it fails with any other error it returns the empty list and an `APIFailure`
error. -/
theorem kafkapki_provided_secret_lookup_fails (E : Env) (r : Reconciler)
    (hc : r.KafkaCluster.Spec.ListenersConfig.SSLSecrets.Create = false) (err : APIError)
    (hs : r.Client.store ⟨r.KafkaCluster.Namespace,
      r.KafkaCluster.Spec.ListenersConfig.SSLSecrets.TLSSecretName⟩ = Except.error err) :
    (err.IsNotFound = true →
      (Reconciler.kafkapki E r).1
        = ([], some (Error.ResourceNotReady err "could not find provided tls secret")))
    ∧ (err.IsNotFound = false →
      (Reconciler.kafkapki E r).1
        = ([], some (Error.APIFailure err "could not lookup provided tls secret")))
    ∧ (Reconciler.kafkapki E r).2.reads
        = r.Client.reads ++ [⟨r.KafkaCluster.Namespace,
            r.KafkaCluster.Spec.ListenersConfig.SSLSecrets.TLSSecretName⟩] := by
  rw [kafkapki_provided_error E r hc err hs]
  refine ⟨fun h => by simp [h], fun h => by simp [h], rfl⟩

/-- The two failures of the lookup of the provided secret, on the sample cluster. -/
theorem kafkapki_provided_secret_lookup_fails_witness :
    ((Reconciler.kafkapki sampleEnv (sampleReconciler false "external-ca" emptyStore)).1
        = ([], some (Error.ResourceNotReady ⟨true, "secrets external-ca not found"⟩
            "could not find provided tls secret")))
    ∧ ((Reconciler.kafkapki sampleEnv (sampleReconciler false "external-ca" brokenStore)).1
        = ([], some (Error.APIFailure ⟨false, "connection refused"⟩
            "could not lookup provided tls secret"))) :=
  ⟨(kafkapki_provided_secret_lookup_fails sampleEnv (sampleReconciler false "external-ca" emptyStore)
      rfl ⟨true, "secrets external-ca not found"⟩ rfl).1 rfl,
   (kafkapki_provided_secret_lookup_fails sampleEnv (sampleReconciler false "external-ca" brokenStore)
      rfl ⟨false, "connection refused"⟩ rfl).2.1 rfl⟩

/-- C5: with create-own-trust unset, the provided secret found and every
registration of the owner succeeding, `kafkapki` returns no error and two
objects in order: a secret whose data has exactly the three entries
`CoreCACertKey` and `TLSCertKey`, both holding the bytes the provided secret
has under `CACertKey`, and `TLSPrivateKeyKey`, holding the bytes it has under
`CAPrivateKeyKey`; then a CA-backed issuer whose secret name is the name of
that secret. The three keys of the map literal are distinct constants, and
`templates.ObjectMeta` gives an object the name it is called with. -/
theorem kafkapki_provided_descriptors (E : Env) (r : Reconciler)
    (hc : r.KafkaCluster.Spec.ListenersConfig.SSLSecrets.Create = false) (secret : Secret)
    (hs : r.Client.store ⟨r.KafkaCluster.Namespace,
      r.KafkaCluster.Spec.ListenersConfig.SSLSecrets.TLSSecretName⟩ = Except.ok secret)
    (hreg : ∀ o ∈ kafkapki.planned E r, E.setControllerReferenceErr r.KafkaCluster o = none)
    (hkeys : E.CoreCACertKey ≠ E.TLSCertKey ∧ E.CoreCACertKey ≠ E.TLSPrivateKeyKey
      ∧ E.TLSCertKey ≠ E.TLSPrivateKeyKey)
    (hname : ∀ name labels cluster, (E.ObjectMeta name labels cluster).Name = name) :
    ∃ caSecret clusterissuer,
      (Reconciler.kafkapki E r).1
        = ([RuntimeObject.secret caSecret, RuntimeObject.clusterIssuer clusterissuer], none)
      ∧ caSecret.Data
        = [(E.CoreCACertKey, DataMap.get secret.Data CACertKey),
           (E.TLSCertKey, DataMap.get secret.Data CACertKey),
           (E.TLSPrivateKeyKey, DataMap.get secret.Data E.CAPrivateKeyKey)]
      ∧ caSecret.Data.length = 3
      ∧ DataMap.get caSecret.Data E.CoreCACertKey = DataMap.get secret.Data CACertKey
      ∧ DataMap.get caSecret.Data E.TLSCertKey = DataMap.get secret.Data CACertKey
      ∧ DataMap.get caSecret.Data E.TLSPrivateKeyKey = DataMap.get secret.Data E.CAPrivateKeyKey
      ∧ clusterissuer.Spec.IssuerConfig
        = { CA := some { SecretName := caSecret.ObjectMeta.Name }, SelfSigned := none } := by
  obtain ⟨h12, h13, h23⟩ := hkeys
  rw [kafkapki_provided_ok E r hc secret hs, firstRefusal_eq_none E r.KafkaCluster _ hreg]
  simp only [kafkapki.planned, hc, kafkapki.secretKey, hs, List.map, kafkapki.caSecret,
    kafkapki.clusterissuer, RuntimeObject.withControllerReference,
    RuntimeObject.setOwnerReferences]
  refine ⟨_, _, rfl, ?_, ?_, ?_, ?_, ?_, ?_⟩ <;>
    simp [DataMap.set, DataMap.get, h12, h13, h23, Ne.symm h12, Ne.symm h13, Ne.symm h23, hname]

/-- The two objects made from the provided secret of the sample cluster. -/
theorem kafkapki_provided_descriptors_witness :
    ∃ caSecret clusterissuer,
      (Reconciler.kafkapki sampleEnv (sampleReconciler false "external-ca" fullStore)).1
        = ([RuntimeObject.secret caSecret, RuntimeObject.clusterIssuer clusterissuer], none)
      ∧ caSecret.Data = [("ca.crt", [1, 2]), ("tls.crt", [1, 2]), ("tls.key", [3])]
      ∧ caSecret.Data.length = 3
      ∧ DataMap.get caSecret.Data "ca.crt" = [1, 2]
      ∧ DataMap.get caSecret.Data "tls.crt" = [1, 2]
      ∧ DataMap.get caSecret.Data "tls.key" = [3]
      ∧ clusterissuer.Spec.IssuerConfig
        = { CA := some { SecretName := caSecret.ObjectMeta.Name }, SelfSigned := none } :=
  kafkapki_provided_descriptors sampleEnv (sampleReconciler false "external-ca" fullStore) rfl
    (sampleSecret "external-ca") rfl (fun _ _ => rfl) (by decide) (fun _ _ _ => rfl)

/-- C8: `kafkapki` returns either an error with the empty list, or no error
with the complete list (five objects when it creates the trust chain, two
otherwise) every object of which holds the controller reference to the
cluster; and when the registration of the owner is refused for the k-th
object it builds, having succeeded for those before, the result is the empty
list with that refusal wrapped. -/
theorem kafkapki_all_or_nothing (E : Env) (r : Reconciler) :
    (((∃ err, (Reconciler.kafkapki E r).1.2 = some err) ∧ (Reconciler.kafkapki E r).1.1 = [])
      ∨ ((Reconciler.kafkapki E r).1.2 = none
        ∧ (Reconciler.kafkapki E r).1.1.length
            = (if r.KafkaCluster.Spec.ListenersConfig.SSLSecrets.Create then 5 else 2)
        ∧ ∀ o ∈ (Reconciler.kafkapki E r).1.1,
            controllerRef r.KafkaCluster ∈ o.meta.OwnerReferences))
    ∧ (∀ (k : Nat) (hk : k < (kafkapki.planned E r).length) (err : APIError),
        (∀ j (hj : j < k), E.setControllerReferenceErr r.KafkaCluster
          ((kafkapki.planned E r).get ⟨j, Nat.lt_trans hj hk⟩) = none) →
        E.setControllerReferenceErr r.KafkaCluster ((kafkapki.planned E r).get ⟨k, hk⟩) = some err →
        (Reconciler.kafkapki E r).1
          = ([], some (Error.WrapIf err "could not set controller reference"))) := by
  have hlen : (kafkapki.planned E r).length
      = (if r.KafkaCluster.Spec.ListenersConfig.SSLSecrets.Create then 5
         else match r.Client.store (kafkapki.secretKey r) with
           | Except.ok _ => 2
           | Except.error _ => 0) := by
    unfold kafkapki.planned
    cases r.KafkaCluster.Spec.ListenersConfig.SSLSecrets.Create
    · cases r.Client.store (kafkapki.secretKey r) <;> simp
    · simp
  have hown : ∀ o ∈ (kafkapki.planned E r).map (RuntimeObject.withControllerReference r.KafkaCluster),
      controllerRef r.KafkaCluster ∈ o.meta.OwnerReferences := by
    intro o ho
    obtain ⟨o', _, rfl⟩ := List.mem_map.mp ho
    exact controllerRef_mem_withControllerReference r.KafkaCluster o'
  cases hc : r.KafkaCluster.Spec.ListenersConfig.SSLSecrets.Create with
  | true =>
    rw [hc] at hlen
    rw [kafkapki_create E r hc]
    constructor
    · cases hf : firstRefusal E r.KafkaCluster (kafkapki.planned E r) with
      | some e => exact Or.inl ⟨⟨_, rfl⟩, rfl⟩
      | none => exact Or.inr ⟨rfl, by simpa using hlen, hown⟩
    · intro k hk err hbefore hat
      rw [firstRefusal_eq_some E r.KafkaCluster _ k hk err hbefore hat]
  | false =>
    rw [hc] at hlen
    cases hs : r.Client.store (kafkapki.secretKey r) with
    | error e =>
      rw [hs] at hlen
      rw [kafkapki_provided_error E r hc e hs]
      refine ⟨Or.inl ⟨⟨_, rfl⟩, rfl⟩, ?_⟩
      intro k hk
      rw [hlen] at hk
      exact absurd hk (Nat.not_lt_zero k)
    | ok secret =>
      rw [hs] at hlen
      rw [kafkapki_provided_ok E r hc secret hs]
      constructor
      · cases hf : firstRefusal E r.KafkaCluster (kafkapki.planned E r) with
        | some e => exact Or.inl ⟨⟨_, rfl⟩, rfl⟩
        | none => exact Or.inr ⟨rfl, by simpa using hlen, hown⟩
      · intro k hk err hbefore hat
        rw [firstRefusal_eq_some E r.KafkaCluster _ k hk err hbefore hat]

/-- A refusal at the third object of the sample cluster discards the first two. -/
theorem kafkapki_all_or_nothing_witness :
    (Reconciler.kafkapki (refusingEnv "kafka-issuer") (sampleReconciler true "" emptyStore)).1
      = ([], some (Error.WrapIf ⟨false, "already owned"⟩ "could not set controller reference")) :=
  (kafkapki_all_or_nothing (refusingEnv "kafka-issuer") (sampleReconciler true "" emptyStore)).2
    2 (by decide) ⟨false, "already owned"⟩
    (fun j hj => match j, hj with
      | 0, _ => rfl
      | 1, _ => rfl)
    rfl

/-- C9: every list `kafkapki` returns without error when it creates the trust
chain is a chain of two tiers in application order: the root certificate is
a CA issued by the self-signed issuer at the first position, the issuer at
the third position is backed by the secret of the root certificate at the
second, and the server and controller certificates are leaves that both name
that issuer; hence every certificate of the list names an issuer placed
before it, and no leaf names a self-signed issuer. Here `templates.ObjectMeta`
gives an object the name it is called with, and the names of the self-signer
and of the cluster issuer differ. -/
theorem kafkapki_create_trust_chain (E : Env) (r : Reconciler)
    (hc : r.KafkaCluster.Spec.ListenersConfig.SSLSecrets.Create = true)
    (hret : (Reconciler.kafkapki E r).1.2 = none)
    (hname : ∀ name labels cluster, (E.ObjectMeta name labels cluster).Name = name)
    (hdistinct : E.brokerSelfSignerTemplate r.KafkaCluster.Name
      ≠ E.BrokerIssuerTemplate r.KafkaCluster.Name) :
    (∃ selfsigner ca clusterissuer brokerCert controllerCert,
      (Reconciler.kafkapki E r).1.1
        = [RuntimeObject.clusterIssuer selfsigner, RuntimeObject.certificate ca,
           RuntimeObject.clusterIssuer clusterissuer, RuntimeObject.certificate brokerCert,
           RuntimeObject.certificate controllerCert]
      ∧ selfsigner.Spec.IssuerConfig = { CA := none, SelfSigned := some {} }
      ∧ ca.Spec.IsCA = true
      ∧ ca.Spec.IssuerRef = { Name := selfsigner.ObjectMeta.Name, Kind := "ClusterIssuer" }
      ∧ clusterissuer.Spec.IssuerConfig
          = { CA := some { SecretName := ca.Spec.SecretName }, SelfSigned := none }
      ∧ brokerCert.Spec.IsCA = false
      ∧ brokerCert.Spec.IssuerRef
          = { Name := clusterissuer.ObjectMeta.Name, Kind := "ClusterIssuer" }
      ∧ controllerCert.Spec.IsCA = false
      ∧ controllerCert.Spec.IssuerRef
          = { Name := clusterissuer.ObjectMeta.Name, Kind := "ClusterIssuer" }
      ∧ selfsigner.ObjectMeta.Name ≠ clusterissuer.ObjectMeta.Name)
    ∧ (∀ (i : Nat) (cert : Certificate),
        (Reconciler.kafkapki E r).1.1[i]? = some (RuntimeObject.certificate cert) →
        ∃ (j : Nat) (issuer : ClusterIssuer), j < i
          ∧ (Reconciler.kafkapki E r).1.1[j]? = some (RuntimeObject.clusterIssuer issuer)
          ∧ issuer.ObjectMeta.Name = cert.Spec.IssuerRef.Name)
    ∧ (∀ (cert : Certificate) (issuer : ClusterIssuer),
        RuntimeObject.certificate cert ∈ (Reconciler.kafkapki E r).1.1 →
        cert.Spec.IsCA = false →
        RuntimeObject.clusterIssuer issuer ∈ (Reconciler.kafkapki E r).1.1 →
        issuer.ObjectMeta.Name = cert.Spec.IssuerRef.Name →
        issuer.Spec.IssuerConfig.SelfSigned = none) := by
  have hnone := firstRefusal_none_of_no_error E r hc hret
  rw [kafkapki_create E r hc, hnone]
  simp only [kafkapki.planned, hc, if_true, List.map, kafkapki.selfsigner, kafkapki.ca,
    kafkapki.clusterissuer, kafkapki.brokerCert, kafkapki.controllerCert,
    RuntimeObject.withControllerReference, RuntimeObject.setOwnerReferences]
  refine ⟨⟨_, _, _, _, _, rfl, rfl, rfl, ?_, rfl, rfl, ?_, rfl, ?_, ?_⟩, ?_, ?_⟩
  · simp [hname]
  · simp [hname]
  · simp [hname]
  · simpa [hname] using hdistinct
  · intro i cert h
    match i, h with
    | 0, h => simp at h
    | 1, h =>
      simp only [List.getElem?_cons_succ, List.getElem?_cons_zero, Option.some.injEq,
        RuntimeObject.certificate.injEq] at h
      subst h
      exact ⟨0, _, by omega, rfl, by simp [hname]⟩
    | 2, h => simp at h
    | 3, h =>
      simp only [List.getElem?_cons_succ, List.getElem?_cons_zero, Option.some.injEq,
        RuntimeObject.certificate.injEq] at h
      subst h
      exact ⟨2, _, by omega, rfl, by simp [hname]⟩
    | 4, h =>
      simp only [List.getElem?_cons_succ, List.getElem?_cons_zero, Option.some.injEq,
        RuntimeObject.certificate.injEq] at h
      subst h
      exact ⟨2, _, by omega, rfl, by simp [hname]⟩
    | n + 5, h => simp at h
  · intro cert issuer hcert hleaf hissuer hsame
    simp only [List.mem_cons, RuntimeObject.certificate.injEq, RuntimeObject.clusterIssuer.injEq,
      List.mem_singleton, false_or, or_false, reduceCtorEq, List.not_mem_nil] at hcert hissuer
    rcases hissuer with rfl | rfl
    · rcases hcert with rfl | rfl | rfl
      · simp at hleaf
      · simp [hname] at hsame
        exact absurd hsame hdistinct
      · simp [hname] at hsame
        exact absurd hsame hdistinct
    · rfl

/-- The trust chain of the sample cluster. -/
theorem kafkapki_create_trust_chain_witness :
    ∃ selfsigner ca clusterissuer brokerCert controllerCert,
      (Reconciler.kafkapki sampleEnv (sampleReconciler true "" emptyStore)).1.1
        = [RuntimeObject.clusterIssuer selfsigner, RuntimeObject.certificate ca,
           RuntimeObject.clusterIssuer clusterissuer, RuntimeObject.certificate brokerCert,
           RuntimeObject.certificate controllerCert]
      ∧ selfsigner.Spec.IssuerConfig = { CA := none, SelfSigned := some {} }
      ∧ ca.Spec.IsCA = true
      ∧ ca.Spec.IssuerRef = { Name := selfsigner.ObjectMeta.Name, Kind := "ClusterIssuer" }
      ∧ clusterissuer.Spec.IssuerConfig
          = { CA := some { SecretName := ca.Spec.SecretName }, SelfSigned := none }
      ∧ brokerCert.Spec.IsCA = false
      ∧ brokerCert.Spec.IssuerRef
          = { Name := clusterissuer.ObjectMeta.Name, Kind := "ClusterIssuer" }
      ∧ controllerCert.Spec.IsCA = false
      ∧ controllerCert.Spec.IssuerRef
          = { Name := clusterissuer.ObjectMeta.Name, Kind := "ClusterIssuer" }
      ∧ selfsigner.ObjectMeta.Name ≠ clusterissuer.ObjectMeta.Name :=
  (kafkapki_create_trust_chain sampleEnv (sampleReconciler true "" emptyStore) rfl rfl
    (fun _ _ _ => rfl) (by decide)).1

/-- C10, as the code has it: with create-own-trust unset and an empty
`TLSSecretName`, `kafkapki` looks the secret up under the empty name as under
any other name: the outcome is the empty list with a `ResourceNotReady` error
when the store reports not-found and with an `APIFailure` error for any other
lookup error, and the two objects without error when the lookup and the
registrations succeed. -/
theorem kafkapki_empty_secret_name (E : Env) (r : Reconciler)
    (hc : r.KafkaCluster.Spec.ListenersConfig.SSLSecrets.Create = false)
    (hempty : r.KafkaCluster.Spec.ListenersConfig.SSLSecrets.TLSSecretName = "") :
    (∀ err, r.Client.store ⟨r.KafkaCluster.Namespace, ""⟩ = Except.error err →
      (Reconciler.kafkapki E r).1
        = ([], some (if err.IsNotFound
            then Error.ResourceNotReady err "could not find provided tls secret"
            else Error.APIFailure err "could not lookup provided tls secret"))
      ∧ (Reconciler.kafkapki E r).2.reads = r.Client.reads ++ [⟨r.KafkaCluster.Namespace, ""⟩])
    ∧ (∀ secret, r.Client.store ⟨r.KafkaCluster.Namespace, ""⟩ = Except.ok secret →
      (∀ o ∈ kafkapki.planned E r, E.setControllerReferenceErr r.KafkaCluster o = none) →
      (Reconciler.kafkapki E r).1
          = ([(kafkapki.caSecret E r.KafkaCluster secret).withControllerReference r.KafkaCluster,
              (kafkapki.clusterissuer E r.KafkaCluster).withControllerReference r.KafkaCluster],
             none)
      ∧ (Reconciler.kafkapki E r).2.reads = r.Client.reads ++ [⟨r.KafkaCluster.Namespace, ""⟩]) := by
  have hkey : kafkapki.secretKey r = ⟨r.KafkaCluster.Namespace, ""⟩ := by
    simp [kafkapki.secretKey, hempty]
  constructor
  · intro err hs
    rw [← hkey] at hs
    rw [kafkapki_provided_error E r hc err hs, hkey]
    exact ⟨rfl, rfl⟩
  · intro secret hs hreg
    rw [← hkey] at hs
    rw [kafkapki_provided_ok E r hc secret hs, firstRefusal_eq_none E r.KafkaCluster _ hreg, hkey]
    simp [kafkapki.planned, hc, hs]

/-- The sample cluster without a secret name, on a store that is out of order. -/
theorem kafkapki_empty_secret_name_witness :
    (Reconciler.kafkapki sampleEnv (sampleReconciler false "" brokenStore)).1
      = ([], some (Error.APIFailure ⟨false, "connection refused"⟩
          "could not lookup provided tls secret")) :=
  ((kafkapki_empty_secret_name sampleEnv (sampleReconciler false "" brokenStore) rfl rfl).1
    ⟨false, "connection refused"⟩ rfl).1

/-- C10, as stated, fails: with create-own-trust unset and no name of an
external secret configured, the error is `ResourceNotReady` on a store that
finds nothing and `APIFailure` on a store that is out of order, and there is
no error at all on a store that answers the empty name with a secret. -/
theorem empty_secret_name_is_looked_up :
    (Reconciler.kafkapki sampleEnv (sampleReconciler false "" emptyStore)).1
        = ([], some (Error.ResourceNotReady ⟨true, "secrets  not found"⟩
            "could not find provided tls secret"))
    ∧ (Reconciler.kafkapki sampleEnv (sampleReconciler false "" brokenStore)).1
        = ([], some (Error.APIFailure ⟨false, "connection refused"⟩
            "could not lookup provided tls secret"))
    ∧ (Reconciler.kafkapki sampleEnv (sampleReconciler false "" fullStore)).1.2 = none
    ∧ (Reconciler.kafkapki sampleEnv (sampleReconciler false "" fullStore)).1.1.length = 2 := by
  refine ⟨by decide, by decide, by decide, by decide⟩

/-! ## Assembling the bootstrap secret: the claims -/

/-- C6: `getBootstrapSSLSecret` reads the server record first. When that
lookup fails it reads nothing else and returns no bundle and no passphrase
record, with a `ResourceNotReady` error if the record was not found and an
`APIFailure` error otherwise; when the server lookup succeeds and the lookup
of the controller record fails it returns no bundle and no passphrase record
either, with the error typed in the same way. -/
theorem getBootstrapSSLSecret_lookup_fails (E : Env) (r : Reconciler) :
    (∃ rest, (Reconciler.getBootstrapSSLSecret E r).2.reads
        = r.Client.reads
          ++ (⟨r.KafkaCluster.Namespace, E.brokerServerCertTemplate r.KafkaCluster.Name⟩ :: rest))
    ∧ (∀ err,
        r.Client.store ⟨r.KafkaCluster.Namespace, E.brokerServerCertTemplate r.KafkaCluster.Name⟩
          = Except.error err →
        (Reconciler.getBootstrapSSLSecret E r).1
          = (none, none, some (if err.IsNotFound
              then Error.ResourceNotReady err "server secret not ready"
              else Error.APIFailure err "could not get server cert"))
        ∧ (Reconciler.getBootstrapSSLSecret E r).2.reads
          = r.Client.reads
            ++ [⟨r.KafkaCluster.Namespace, E.brokerServerCertTemplate r.KafkaCluster.Name⟩])
    ∧ (∀ serverSecret err,
        r.Client.store ⟨r.KafkaCluster.Namespace, E.brokerServerCertTemplate r.KafkaCluster.Name⟩
          = Except.ok serverSecret →
        r.Client.store ⟨r.KafkaCluster.Namespace, E.BrokerControllerTemplate r.KafkaCluster.Name⟩
          = Except.error err →
        (Reconciler.getBootstrapSSLSecret E r).1
          = (none, none, some (if err.IsNotFound
              then Error.ResourceNotReady err "client secret not ready"
              else Error.APIFailure err "could not get client cert"))
        ∧ (Reconciler.getBootstrapSSLSecret E r).2.reads
          = r.Client.reads
            ++ [⟨r.KafkaCluster.Namespace, E.brokerServerCertTemplate r.KafkaCluster.Name⟩,
                ⟨r.KafkaCluster.Namespace, E.BrokerControllerTemplate r.KafkaCluster.Name⟩]) := by
  refine ⟨?_, ?_, ?_⟩
  · cases hs : r.Client.store
        ⟨r.KafkaCluster.Namespace, E.brokerServerCertTemplate r.KafkaCluster.Name⟩ with
    | error e =>
      refine ⟨[], ?_⟩
      cases hn : e.IsNotFound <;> simp [Reconciler.getBootstrapSSLSecret, Client.Get, hs, hn]
    | ok serverSecret =>
      refine ⟨[⟨r.KafkaCluster.Namespace, E.BrokerControllerTemplate r.KafkaCluster.Name⟩], ?_⟩
      cases hcl : r.Client.store
          ⟨r.KafkaCluster.Namespace, E.BrokerControllerTemplate r.KafkaCluster.Name⟩ with
      | error e =>
        cases hn : e.IsNotFound <;>
          simp [Reconciler.getBootstrapSSLSecret, Client.Get, hs, hcl, hn]
      | ok clientSecret => simp [Reconciler.getBootstrapSSLSecret, Client.Get, hs, hcl]
  · intro err hs
    cases hn : err.IsNotFound <;> simp [Reconciler.getBootstrapSSLSecret, Client.Get, hs, hn]
  · intro serverSecret err hs hcl
    cases hn : err.IsNotFound <;>
      simp [Reconciler.getBootstrapSSLSecret, Client.Get, hs, hcl, hn]

/-- The sample cluster with no record issued, and with the server record only. -/
theorem getBootstrapSSLSecret_lookup_fails_witness :
    ((Reconciler.getBootstrapSSLSecret sampleEnv (sampleReconciler true "kafka-tls" emptyStore)).1
        = (none, none, some (Error.ResourceNotReady ⟨true, "secrets kafka-server-certificate not found"⟩
            "server secret not ready"))
      ∧ (Reconciler.getBootstrapSSLSecret sampleEnv
            (sampleReconciler true "kafka-tls" emptyStore)).2.reads
        = [] ++ [⟨"prod", "kafka-server-certificate"⟩])
    ∧ ((Reconciler.getBootstrapSSLSecret sampleEnv
            (sampleReconciler true "kafka-tls" serverOnlyStore)).1
        = (none, none, some (Error.ResourceNotReady ⟨true, "secrets kafka-controller not found"⟩
            "client secret not ready"))
      ∧ (Reconciler.getBootstrapSSLSecret sampleEnv
            (sampleReconciler true "kafka-tls" serverOnlyStore)).2.reads
        = [] ++ [⟨"prod", "kafka-server-certificate"⟩, ⟨"prod", "kafka-controller"⟩]) :=
  ⟨(getBootstrapSSLSecret_lookup_fails sampleEnv
      (sampleReconciler true "kafka-tls" emptyStore)).2.1
      ⟨true, "secrets kafka-server-certificate not found"⟩ rfl,
   (getBootstrapSSLSecret_lookup_fails sampleEnv
      (sampleReconciler true "kafka-tls" serverOnlyStore)).2.2
      (sampleSecret "kafka-server-certificate") ⟨true, "secrets kafka-controller not found"⟩
      rfl rfl⟩

/-- C7: when both lookups succeed, `getBootstrapSSLSecret` returns no error
and a bundle whose data has exactly the five fields caCert, peerCert, peerKey,
clientCert and clientKey, holding the CA certificate, the certificate and the
private key of the server record and the certificate and the private key of
the controller record, together with a passphrase record of exactly one
entry, the generated passphrase. -/
theorem getBootstrapSSLSecret_bundle (E : Env) (r : Reconciler) (serverSecret clientSecret : Secret)
    (hs : r.Client.store ⟨r.KafkaCluster.Namespace, E.brokerServerCertTemplate r.KafkaCluster.Name⟩
      = Except.ok serverSecret)
    (hcl : r.Client.store ⟨r.KafkaCluster.Namespace, E.BrokerControllerTemplate r.KafkaCluster.Name⟩
      = Except.ok clientSecret) :
    ∃ certs passw,
      (Reconciler.getBootstrapSSLSecret E r).1 = (some certs, some passw, none)
      ∧ DataMap.keys certs.Data = ["caCert", "peerCert", "peerKey", "clientCert", "clientKey"]
      ∧ DataMap.get certs.Data "caCert" = DataMap.get serverSecret.Data E.CoreCACertKey
      ∧ DataMap.get certs.Data "peerCert" = DataMap.get serverSecret.Data E.TLSCertKey
      ∧ DataMap.get certs.Data "peerKey" = DataMap.get serverSecret.Data E.TLSPrivateKeyKey
      ∧ DataMap.get certs.Data "clientCert" = DataMap.get clientSecret.Data E.TLSCertKey
      ∧ DataMap.get certs.Data "clientKey" = DataMap.get clientSecret.Data E.TLSPrivateKeyKey
      ∧ passw.Data = [(E.PasswordKey, E.GeneratePass 16)]
      ∧ passw.Data.length = 1 := by
  simp only [Reconciler.getBootstrapSSLSecret, Client.Get, hs, hcl]
  refine ⟨_, _, rfl, ?_, ?_, ?_, ?_, ?_, ?_, ?_, ?_⟩ <;>
    simp [DataMap.set, DataMap.get, DataMap.keys, CACertKey, PeerCertKey, PeerPrivateKeyKey,
      ClientCertKey, ClientPrivateKeyKey]

/-- The bundle of the sample cluster when both records are there. -/
theorem getBootstrapSSLSecret_bundle_witness :
    ∃ certs passw,
      (Reconciler.getBootstrapSSLSecret sampleEnv (sampleReconciler true "kafka-tls" fullStore)).1
        = (some certs, some passw, none)
      ∧ DataMap.keys certs.Data = ["caCert", "peerCert", "peerKey", "clientCert", "clientKey"]
      ∧ DataMap.get certs.Data "caCert" = [4]
      ∧ DataMap.get certs.Data "peerCert" = [5, 6]
      ∧ DataMap.get certs.Data "peerKey" = [7]
      ∧ DataMap.get certs.Data "clientCert" = [5, 6]
      ∧ DataMap.get certs.Data "clientKey" = [7]
      ∧ passw.Data = [("password", List.replicate 16 97)]
      ∧ passw.Data.length = 1 :=
  getBootstrapSSLSecret_bundle sampleEnv (sampleReconciler true "kafka-tls" fullStore)
    (sampleSecret "kafka-server-certificate") (sampleSecret "kafka-controller") rfl rfl

end KafkaPKI
